import Mathlib

/-!
Verification development for the resilience core of a weather gateway
service (FastAPI application fronting the Weatherstack upstream).

The development shallowly embeds the Python source:

* `src/app/exceptions.py`        → `WeatherstackException`
* `src/app/middleware/circuit_breaker.py` → `CircuitState`, `CircuitBreaker`
* `src/app/dependencies.py`      → `CacheEntry`, `CacheManager`
* `src/app/middleware/metrics.py` → `Metrics`, `MetricEvent`
* `src/app/services/weatherstack.py` → `fetch_weather_once`, `get_current_weather`
* `src/app/api/routes/weather.py` → `get_weather`

Wall-clock instants (Python `time.time()`, float seconds) are modelled as
rationals: the code only ever adds, subtracts and compares them.
Mutating methods become functions returning the updated object; every
`time.time()` read becomes an explicit `now` argument.
-/

namespace WeatherGateway

/-- Time instants and durations (Python float seconds). -/
abbrev Time := ℚ

/-! ## Error model — `src/app/exceptions.py`

The Python module defines a base class `WeatherstackException(message,
status_code)` and four concrete subclasses.  The four subclasses are
*siblings*: in particular `WeatherstackNotFoundError`,
`WeatherstackRateLimitError` and `WeatherstackAuthError` are NOT
subclasses of `WeatherstackAPIError`.  We model a concrete exception as a
sum over the four leaf classes, each carrying its message. -/

inductive WeatherstackException
  /-- `WeatherstackAPIError` — general API failures, status 500. -/
  | APIError (message : String)
  /-- `WeatherstackNotFoundError` — city not found, status 404. -/
  | NotFoundError (message : String)
  /-- `WeatherstackRateLimitError` — rate limit exceeded, status 429. -/
  | RateLimitError (message : String)
  /-- `WeatherstackAuthError` — invalid API key, status 401. -/
  | AuthError (message : String)
deriving DecidableEq, Repr

namespace WeatherstackException

/-- The `status_code` attribute set by each subclass constructor. -/
def status_code : WeatherstackException → Nat
  | APIError _ => 500
  | NotFoundError _ => 404
  | RateLimitError _ => 429
  | AuthError _ => 401

/-- The `message` attribute (also `str(e)`, since the base class passes
`message` to `Exception.__init__`). -/
def message : WeatherstackException → String
  | APIError m => m
  | NotFoundError m => m
  | RateLimitError m => m
  | AuthError m => m

/-- `type(e).__name__`, as used by the route handler for error metrics. -/
def typeName : WeatherstackException → String
  | APIError _ => "WeatherstackAPIError"
  | NotFoundError _ => "WeatherstackNotFoundError"
  | RateLimitError _ => "WeatherstackRateLimitError"
  | AuthError _ => "WeatherstackAuthError"

end WeatherstackException

/-! ## Configuration defaults — `src/app/config.py` -/

def CACHE_TTL_SECONDS : ℚ := 300
def STALE_CACHE_MAX_AGE_SECONDS : ℚ := 3600
def RETRY_MAX_ATTEMPTS : Nat := 3
def CIRCUIT_BREAKER_FAILURE_THRESHOLD : Nat := 5
def CIRCUIT_BREAKER_RECOVERY_TIMEOUT : Time := 60
def CIRCUIT_BREAKER_FAILURE_RATE_THRESHOLD : ℚ := 1/2

/-! ## Circuit breaker — `src/app/middleware/circuit_breaker.py` -/

/-- `CircuitState` enum: CLOSED / OPEN / HALF_OPEN. -/
inductive CircuitState
  | Closed
  | Open
  | HalfOpen
deriving DecidableEq, Repr

/-- The `.value` strings of the Python enum members. -/
def CircuitState.value : CircuitState → String
  | .Closed => "closed"
  | .Open => "open"
  | .HalfOpen => "half_open"

/-- `CircuitBreakerStats` dataclass. -/
structure CircuitBreakerStats where
  failures : Nat
  successes : Nat
  last_failure_time : Option Time
  last_success_time : Option Time
  state_changes : Nat
deriving DecidableEq, Repr

/-- `CircuitBreaker` instance state (configuration fields set in
`__init__` plus the mutable fields).  `max_recent_requests` is fixed to 20
by `__init__`; we keep it as a field because the methods read
`self._max_recent_requests`. -/
structure CircuitBreaker where
  failure_threshold : Nat
  recovery_timeout : Time
  failure_rate_threshold : ℚ
  state : CircuitState
  stats : CircuitBreakerStats
  opened_at : Option Time
  recent_requests : List Bool  -- True = success, False = failure
  max_recent_requests : Nat
deriving DecidableEq, Repr

namespace CircuitBreaker

/-- `CircuitBreaker()` constructed with the settings defaults
(the module-level singleton `circuit_breaker`). -/
def init : CircuitBreaker where
  failure_threshold := CIRCUIT_BREAKER_FAILURE_THRESHOLD
  recovery_timeout := CIRCUIT_BREAKER_RECOVERY_TIMEOUT
  failure_rate_threshold := CIRCUIT_BREAKER_FAILURE_RATE_THRESHOLD
  state := .Closed
  stats := ⟨0, 0, none, none, 0⟩
  opened_at := none
  recent_requests := []
  max_recent_requests := 20

/-- The ring-buffer update shared by `_record_success` and
`_record_failure`: `self._recent_requests.append(b)` followed by
`pop(0)` when the length exceeds `self._max_recent_requests`. -/
def pushRecent (cb : CircuitBreaker) (b : Bool) : List Bool :=
  let l := cb.recent_requests ++ [b]
  if l.length > cb.max_recent_requests then l.tail else l

/-- `_calculate_failure_rate`: 0.0 on an empty buffer (Python list
truthiness), else the fraction of `False` entries. -/
def calculate_failure_rate (cb : CircuitBreaker) : ℚ :=
  match cb.recent_requests with
  | [] => 0
  | l => (l.countP (fun r => !r) : ℚ) / (l.length : ℚ)

/-- `_record_success`: bump counters, push `True`; from HALF_OPEN move to
CLOSED, clear `opened_at` and `stats.failures`.  (No reset of
`stats.failures` happens in the CLOSED state: the `if` on
`self.state == CircuitState.HALF_OPEN` is case analysis on the enum.) -/
def record_success (cb : CircuitBreaker) (now : Time) : CircuitBreaker :=
  let cb := { cb with
    stats := { cb.stats with
      successes := cb.stats.successes + 1
      last_success_time := some now }
    recent_requests := cb.pushRecent true }
  match cb.state with
  | .HalfOpen =>
    { cb with
      state := .Closed
      stats := { cb.stats with state_changes := cb.stats.state_changes + 1, failures := 0 }
      opened_at := none }
  | _ => cb

/-- `_record_failure`: bump counters, push `False`; in CLOSED open the
circuit when `stats.failures ≥ failure_threshold` or the failure rate
reaches `failure_rate_threshold`; in HALF_OPEN reopen with refreshed
`opened_at`.  (The code additionally ticks
`get_metrics().record_circuit_breaker_open()` when opening from CLOSED,
swallowing `ImportError`; that global-metrics side effect is outside the
breaker state and not modelled here.) -/
def record_failure (cb : CircuitBreaker) (now : Time) : CircuitBreaker :=
  let cb := { cb with
    stats := { cb.stats with
      failures := cb.stats.failures + 1
      last_failure_time := some now }
    recent_requests := cb.pushRecent false }
  match cb.state with
  | .Closed =>
    if cb.stats.failures ≥ cb.failure_threshold
        ∨ cb.calculate_failure_rate ≥ cb.failure_rate_threshold then
      { cb with
        state := .Open
        stats := { cb.stats with state_changes := cb.stats.state_changes + 1 }
        opened_at := some now }
    else cb
  | .HalfOpen =>
    { cb with
      state := .Open
      stats := { cb.stats with state_changes := cb.stats.state_changes + 1 }
      opened_at := some now }
  | .Open => cb

/-- `_should_attempt_request`: the admission check.  Mutates the breaker
(lazy OPEN→HALF_OPEN transition), so it returns the decision together
with the updated breaker.  Python truthiness of `self.opened_at` means
the OPEN branch tests `opened_at is not None and opened_at != 0.0`. -/
def should_attempt_request (cb : CircuitBreaker) (now : Time) : Bool × CircuitBreaker :=
  match cb.state with
  | .Closed => (true, cb)
  | .Open =>
    match cb.opened_at with
    | some t =>
      if t ≠ 0 ∧ now - t ≥ cb.recovery_timeout then
        (true,
          { cb with
            state := .HalfOpen
            stats := { cb.stats with state_changes := cb.stats.state_changes + 1 } })
      else (false, cb)
    | none => (false, cb)
  | .HalfOpen => (true, cb)

/-- Record one upstream verdict: the side effect `call` performs after an
admitted attempt (`True` = the wrapped function returned, `False` = it
raised). -/
def record_outcome (cb : CircuitBreaker) (now : Time) (success : Bool) : CircuitBreaker :=
  if success then cb.record_success now else cb.record_failure now

/-- Drive the breaker through a sequence of admitted verdicts (all
stamped `now`; the breaker's transition logic does not depend on the
stamp except for storing it). -/
def record_outcomes (cb : CircuitBreaker) (now : Time) (l : List Bool) : CircuitBreaker :=
  l.foldl (fun c b => c.record_outcome now b) cb

end CircuitBreaker

/-- The outcome `call` observes from the wrapped function: the Python
`func(*args, **kwargs)` either returns a value or raises an exception.
Every exception raised by `weatherstack_service.get_current_weather` is a
`WeatherstackException` (or is modelled as one by the route; see
`UpstreamResult` for the route-level catch-all). -/
abbrev WrappedOutcome (α : Type) := Except WeatherstackException α

/-- Result of `CircuitBreaker.call`: the function's value, the
`CircuitBreakerOpenError` fast-fail, or the re-raised exception.
(`CircuitBreakerOpenError` is imported from `app.exceptions` and raised
here, though its class definition is absent from
`src/app/exceptions.py`; we only need its identity as a distinct
outcome.) -/
inductive CallResult (α : Type)
  | ok (v : α)
  | breakerOpen
  | raised (e : WeatherstackException)
deriving DecidableEq, Repr

/-- `CircuitBreaker.call`: admission check; on denial raise
`CircuitBreakerOpenError` without invoking the function; otherwise invoke
it, record success on return and failure on ANY exception (the Python
handler is `except Exception`), re-raising the exception. -/
def CircuitBreaker.call (cb : CircuitBreaker) (now : Time) (outcome : WrappedOutcome α) :
    CallResult α × CircuitBreaker :=
  let (allow, cb) := cb.should_attempt_request now
  if allow then
    match outcome with
    | .ok v => (.ok v, cb.record_success now)
    | .error e => (.raised e, cb.record_failure now)
  else (.breakerOpen, cb)

/-! ## Python string primitives

`str.strip()` and `str.lower()` as executable Lean functions over the
character list (the cities handled here are ASCII; Lean's own
`String.trim`/`String.toLower` compute the same strings but are defined
by well-founded recursion on byte positions, which blocks kernel
evaluation). -/

/-- Python `str.strip()` with no argument: remove whitespace from both
ends. -/
def pyStrip (s : String) : String :=
  ⟨((s.data.dropWhile Char.isWhitespace).reverse.dropWhile Char.isWhitespace).reverse⟩

/-- Python `str.lower()`. -/
def pyLower (s : String) : String :=
  ⟨s.data.map Char.toLower⟩

/-! ## Cache — `src/app/dependencies.py`

The Python `dict[str, CacheEntry]` is modelled as an insertion-ordered
association list with unique keys, matching dict iteration order:
`d[k] = v` replaces in place when `k` is present and appends otherwise;
`min(keys, key=...)` returns the first key (in insertion order)
attaining the minimum.  The cached payload type is an opaque parameter
`α` (the code stores `Dict[str, Any]` verbatim). -/

/-- `CacheEntry`: payload plus creation timestamp (`time.time()` at
construction, passed explicitly here).  `age_seconds()` reads the clock,
so it takes `now`. -/
structure CacheEntry (α : Type) where
  data : α
  timestamp : Time
deriving DecidableEq, Repr

/-- `CacheEntry.age_seconds`. -/
def CacheEntry.age_seconds (e : CacheEntry α) (now : Time) : Time :=
  now - e.timestamp

/-- Dict of cache entries in insertion order. -/
abbrev CacheDict (α : Type) := List (String × CacheEntry α)

namespace CacheDict

/-- `self._cache.get(key)`. -/
def get (d : CacheDict α) (key : String) : Option (CacheEntry α) :=
  match d.find? (fun p => p.1 = key) with
  | some p => some p.2
  | none => none

/-- `self._cache[key] = entry` — replace in place, else append. -/
def insert (d : CacheDict α) (key : String) (e : CacheEntry α) : CacheDict α :=
  if d.any (fun p => p.1 = key) then
    d.map (fun p => if p.1 = key then (key, e) else p)
  else d ++ [(key, e)]

/-- `del self._cache[key]`. -/
def erase (d : CacheDict α) (key : String) : CacheDict α :=
  d.filter (fun p => p.1 ≠ key)

/-- `min(self._cache.keys(), key=lambda k: self._cache[k].timestamp)`:
the first key in iteration order with minimal timestamp (`min` keeps the
earliest of ties); `none` on an empty dict (where Python `min` raises
`ValueError`). -/
def oldest_key : CacheDict α → Option String
  | [] => none
  | (k, e) :: rest => some (go rest k e.timestamp)
where
  go : CacheDict α → String → Time → String
    | [], k, _ => k
    | (k2, e2) :: rest, k, t =>
      if e2.timestamp < t then go rest k2 e2.timestamp else go rest k t

end CacheDict

/-- `CacheManager` instance state: the dict plus the configuration set in
`__init__` (`maxsize` is assigned `1000` there; the methods read
`self.maxsize`, kept as a field). -/
structure CacheManager (α : Type) where
  cache : CacheDict α
  ttl_seconds : ℚ
  stale_max_age_seconds : ℚ
  maxsize : Nat
deriving DecidableEq, Repr

/-- Response metadata dict built by `get_with_metadata` / `get_stale`.
`age_seconds` is stored unrounded; the code stores `round(age, 1)`,
a display-only float rounding not modelled. -/
structure CacheMetadata where
  cached : Bool
  stale : Bool
  age_seconds : ℚ
  source : String
deriving DecidableEq, Repr

namespace CacheManager

/-- `CacheManager(ttl_seconds=settings.CACHE_TTL_SECONDS)` — the
singleton built by `get_cache_manager`. -/
def init (α : Type) : CacheManager α where
  cache := []
  ttl_seconds := CACHE_TTL_SECONDS
  stale_max_age_seconds := STALE_CACHE_MAX_AGE_SECONDS
  maxsize := 1000

/-- The `(None, {...})` metadata returned when no usable entry exists. -/
def missMetadata : CacheMetadata := ⟨false, false, 0, "none"⟩

/-- `_cleanup_expired`: drop every entry whose age exceeds
`stale_max_age_seconds`. -/
def cleanup_expired (m : CacheManager α) (now : Time) : CacheManager α :=
  { m with cache := m.cache.filter (fun p => ¬ p.2.age_seconds now > m.stale_max_age_seconds) }

/-- `_evict_if_needed`: when `len(self._cache) >= self.maxsize`, delete
the entry with the smallest timestamp (unconditionally — no check
whether the incoming key is already present). -/
def evict_if_needed (m : CacheManager α) : CacheManager α :=
  if m.cache.length ≥ m.maxsize then
    match m.cache.oldest_key with
    | some k => { m with cache := m.cache.erase k }
    | none => m  -- empty dict with maxsize = 0: Python min would raise
  else m

/-- `get`: fresh lookup, returns the payload iff the entry exists and
`age ≤ ttl_seconds`. -/
def get (m : CacheManager α) (now : Time) (key : String) : Option α :=
  match m.cache.get key with
  | some entry =>
    if entry.age_seconds now ≤ m.ttl_seconds then some entry.data else none
  | none => none

/-- `get_with_metadata`: entry plus freshness metadata; available iff
`age ≤ stale_max_age_seconds`, `stale` iff `age > ttl_seconds`. -/
def get_with_metadata (m : CacheManager α) (now : Time) (key : String) :
    Option α × CacheMetadata :=
  match m.cache.get key with
  | some entry =>
    let age := entry.age_seconds now
    if age ≤ m.stale_max_age_seconds then
      (some entry.data,
        ⟨true, age > m.ttl_seconds, age,
          if age > m.ttl_seconds then "cache_fallback" else "cache"⟩)
    else (none, missMetadata)
  | none => (none, missMetadata)

/-- `get_stale`: stale-tolerant lookup used for outage fallback; same
visibility and metadata as `get_with_metadata`. -/
def get_stale (m : CacheManager α) (now : Time) (key : String) :
    Option α × CacheMetadata :=
  match m.cache.get key with
  | some entry =>
    let age := entry.age_seconds now
    if age ≤ m.stale_max_age_seconds then
      (some entry.data,
        ⟨true, age > m.ttl_seconds, age,
          if age > m.ttl_seconds then "cache_fallback" else "cache"⟩)
    else (none, missMetadata)
  | none => (none, missMetadata)

/-- `set`: evict if at capacity, insert a fresh-stamped entry, then run
the periodic cleanup when the new size is a multiple of 100. -/
def set (m : CacheManager α) (now : Time) (key : String) (value : α) : CacheManager α :=
  let m := m.evict_if_needed
  let m := { m with cache := m.cache.insert key ⟨value, now⟩ }
  if m.cache.length % 100 = 0 then m.cleanup_expired now else m

/-- `generate_key`: `"weather:" + city.lower().strip()`. -/
def generate_key (_m : CacheManager α) (city : String) : String :=
  "weather:" ++ pyStrip (pyLower city)

end CacheManager

/-! ## Metrics registry — `src/app/middleware/metrics.py`

The `Metrics` dataclass with its mutating `record_*` operations.  The
code paths under verification are additionally instrumented with an
explicit *trace* of metric events (`MetricEvent`), so that claims about
how often a recorder is invoked become claims about the trace; folding
`Metrics.applyEvent` over the trace reproduces the mutations in call
order. -/

/-- The `errors_by_type` defaultdict, as an association list. -/
abbrev ErrorCounts := List (String × Nat)

/-- `self.errors_by_type[error_type] += 1` on a defaultdict(int). -/
def ErrorCounts.bump (c : ErrorCounts) (kind : String) : ErrorCounts :=
  if c.any (fun p => p.1 = kind) then
    c.map (fun p => if p.1 = kind then (p.1, p.2 + 1) else p)
  else c ++ [(kind, 1)]

/-- `Metrics` dataclass state. -/
structure Metrics where
  api_requests_total : Nat
  api_errors_total : Nat
  api_timeouts_total : Nat
  cache_hits_total : Nat
  cache_misses_total : Nat
  stale_cache_fallbacks_total : Nat
  circuit_breaker_opens_total : Nat
  retry_attempts_total : Nat
  errors_by_type : ErrorCounts
  response_times : List ℚ
  max_response_times : Nat
deriving DecidableEq, Repr

namespace Metrics

/-- `Metrics()` with dataclass defaults (the module-level singleton). -/
def init : Metrics where
  api_requests_total := 0
  api_errors_total := 0
  api_timeouts_total := 0
  cache_hits_total := 0
  cache_misses_total := 0
  stale_cache_fallbacks_total := 0
  circuit_breaker_opens_total := 0
  retry_attempts_total := 0
  errors_by_type := []
  response_times := []
  max_response_times := 1000

def record_request (m : Metrics) : Metrics :=
  { m with api_requests_total := m.api_requests_total + 1 }

def record_error (m : Metrics) (error_type : String) : Metrics :=
  { m with
    api_errors_total := m.api_errors_total + 1
    errors_by_type := m.errors_by_type.bump error_type }

def record_cache_hit (m : Metrics) : Metrics :=
  { m with cache_hits_total := m.cache_hits_total + 1 }

def record_cache_miss (m : Metrics) : Metrics :=
  { m with cache_misses_total := m.cache_misses_total + 1 }

def record_stale_cache_fallback (m : Metrics) : Metrics :=
  { m with stale_cache_fallbacks_total := m.stale_cache_fallbacks_total + 1 }

def record_circuit_breaker_open (m : Metrics) : Metrics :=
  { m with circuit_breaker_opens_total := m.circuit_breaker_opens_total + 1 }

def record_retry (m : Metrics) : Metrics :=
  { m with retry_attempts_total := m.retry_attempts_total + 1 }

/-- `record_response_time`: append, dropping the oldest sample when the
buffer exceeds `max_response_times`. -/
def record_response_time (m : Metrics) (duration_seconds : ℚ) : Metrics :=
  let ts := m.response_times ++ [duration_seconds]
  { m with response_times := if ts.length > m.max_response_times then ts.tail else ts }

end Metrics

/-- One invocation of a `Metrics.record_*` method, as traced by the
instrumented code paths. -/
inductive MetricEvent
  | request
  | error (error_type : String)
  | cacheHit
  | cacheMiss
  | staleFallback
  | breakerOpenTick
  | retryTick
  | responseTime (duration_seconds : ℚ)
deriving DecidableEq, Repr

/-- Replay one traced event against the metrics registry. -/
def Metrics.applyEvent (m : Metrics) : MetricEvent → Metrics
  | .request => m.record_request
  | .error t => m.record_error t
  | .cacheHit => m.record_cache_hit
  | .cacheMiss => m.record_cache_miss
  | .staleFallback => m.record_stale_cache_fallback
  | .breakerOpenTick => m.record_circuit_breaker_open
  | .retryTick => m.record_retry
  | .responseTime d => m.record_response_time d

/-- Replay a trace in call order. -/
def Metrics.applyEvents (m : Metrics) (evs : List MetricEvent) : Metrics :=
  evs.foldl Metrics.applyEvent m

/-- Recognizer for `record_response_time` invocations in a trace. -/
def MetricEvent.isResponseTime : MetricEvent → Bool
  | .responseTime _ => true
  | _ => false

/-- Recognizer for `record_retry` invocations in a trace. -/
def MetricEvent.isRetryTick : MetricEvent → Bool
  | .retryTick => true
  | _ => false

/-! ## Upstream client and retry loop — `src/app/services/weatherstack.py`

The network is abstracted as a per-attempt environment: `AttemptResult`
describes what `self.client.get` / `raise_for_status()` / the JSON body
yield on one attempt.  `get_current_weather` consumes a list of such
planned outcomes, one per attempt it actually performs. -/

/-- Raw outcome of one upstream round trip, before
`_fetch_weather_once` interprets it. -/
inductive AttemptResult (α : Type)
  /-- `raise_for_status()` raised `httpx.HTTPStatusError` (status ≥ 400). -/
  | httpStatus (code : Nat)
  /-- `httpx.TimeoutException` from the transport. -/
  | timeoutExc (msg : String)
  /-- `httpx.ConnectError` from the transport. -/
  | connectExc (msg : String)
  /-- Another `httpx.RequestError` from the transport. -/
  | requestExc (msg : String)
  /-- 2xx response whose JSON body carries an `error` object
  (Weatherstack signals errors in-body); `code` is `error.code`,
  `info` is `error.info` (defaulted to "Unknown error" upstream). -/
  | bodyError (code : Option Nat) (info : String)
  /-- 2xx response with a normal payload (no `error` key). -/
  | payload (data : α)
  /-- Any other exception. -/
  | otherExc (msg : String)
deriving DecidableEq, Repr

/-- An exception escaping `_fetch_weather_once`, preserving its Python
class: the httpx transport classes, the `WeatherstackException`
subclasses, or anything else. -/
inductive FetchExc
  | httpStatusError (code : Nat)
  | timeoutException (msg : String)
  | connectError (msg : String)
  | requestError (msg : String)
  | ws (e : WeatherstackException)
  | otherExc (msg : String)
deriving DecidableEq, Repr

/-- `_fetch_weather_once`: propagate transport errors; map an in-body
`error.code` of 404/401/429 to the corresponding
`WeatherstackException` subclass, any other in-body error to
`WeatherstackAPIError`; return the payload otherwise.  (The Python
404 message is `f"City planned-name not found"` with the city quoted;
quoting is elided here.) -/
def fetch_weather_once (city : String) : AttemptResult α → Except FetchExc α
  | .httpStatus code => .error (.httpStatusError code)
  | .timeoutExc m => .error (.timeoutException m)
  | .connectExc m => .error (.connectError m)
  | .requestExc m => .error (.requestError m)
  | .bodyError code info =>
    if code = some 404 then
      .error (.ws (.NotFoundError ("City " ++ city ++ " not found")))
    else if code = some 401 then
      .error (.ws (.AuthError "Invalid API key"))
    else if code = some 429 then
      .error (.ws (.RateLimitError "Rate limit exceeded"))
    else
      .error (.ws (.APIError ("Weatherstack API error: " ++ info)))
  | .payload d => .ok d
  | .otherExc m => .error (.otherExc m)

/-- `_is_retryable_error`: `WeatherstackAuthError`,
`WeatherstackNotFoundError`, `WeatherstackRateLimitError` are not
retryable; httpx transport errors and `WeatherstackAPIError` are;
everything else is not. -/
def is_retryable_error : FetchExc → Bool
  | .ws (.AuthError _) => false
  | .ws (.NotFoundError _) => false
  | .ws (.RateLimitError _) => false
  | .timeoutException _ => true
  | .connectError _ => true
  | .requestError _ => true
  | .ws (.APIError _) => true
  | _ => false

deriving instance DecidableEq for Except

/-- What one iteration of the retry loop in `get_current_weather` does
with the attempt's outcome: finish (return or raise), or fall through to
the next attempt remembering `last_error`. -/
inductive AttemptVerdict (α : Type)
  | done (r : Except WeatherstackException α)
  | continueWith (last_error : WeatherstackException)
deriving DecidableEq, Repr

/-- One iteration of the `for attempt in range(...)` body of
`get_current_weather`, dispatching on the exception class exactly as the
`except` clauses do.  Note the clause order and the class hierarchy: a
`WeatherstackNotFoundError` / `WeatherstackAuthError` /
`WeatherstackRateLimitError` raised by `_fetch_weather_once` (in-body
error codes) matches NONE of the specific clauses — it is a *sibling*
of `WeatherstackAPIError`, not a subclass — and lands in the final
`except Exception`, which wraps it as a retryable
`WeatherstackAPIError("Unexpected error: ...")`. -/
def attempt_step (city : String) (r : AttemptResult α) : AttemptVerdict α :=
  match fetch_weather_once city r with
  | .ok data => .done (.ok data)
  | .error (.httpStatusError status_code) =>
    -- except httpx.HTTPStatusError
    if status_code = 401 then .done (.error (.AuthError "Invalid API key"))
    else if status_code = 404 then
      .done (.error (.NotFoundError ("City " ++ city ++ " not found")))
    else if status_code = 429 then
      .done (.error (.RateLimitError "Rate limit exceeded"))
    else
      let last_error : WeatherstackException :=
        .APIError ("HTTP error " ++ toString status_code)
      if ¬ is_retryable_error (.ws last_error) then .done (.error last_error)
      else .continueWith last_error
  | .error (.timeoutException m) =>
    -- except httpx.TimeoutException
    .continueWith (.APIError ("Request timeout: " ++ m))
  | .error (.connectError m) =>
    -- except httpx.ConnectError
    .continueWith (.APIError ("Connection error: " ++ m))
  | .error (.requestError m) =>
    -- except httpx.RequestError
    .continueWith (.APIError ("Request error: " ++ m))
  | .error (.ws (.APIError m)) =>
    -- except WeatherstackAPIError
    if ¬ is_retryable_error (.ws (.APIError m)) then .done (.error (.APIError m))
    else .continueWith (.APIError m)
  | .error (.ws e) =>
    -- except Exception — catches the sibling WeatherstackException classes
    .continueWith (.APIError ("Unexpected error: " ++ e.message))
  | .error (.otherExc m) =>
    -- except Exception
    .continueWith (.APIError ("Unexpected error: " ++ m))

/-- Result of `get_current_weather`: the returned payload or raised
exception, the number of fetch attempts performed, and the trace of
`Metrics` calls the service makes (the source makes none: nothing in
`weatherstack.py` touches the metrics registry). -/
structure RetryOutcome (α : Type) where
  result : Except WeatherstackException α
  attempts : Nat
  events : List MetricEvent
deriving DecidableEq, Repr

/-- The retry loop of `get_current_weather`, consuming one planned
attempt outcome per iteration; after exhaustion, raise the remembered
`last_error` (or the generic `WeatherstackAPIError` if no attempt ran). -/
def retry_run (city : String) :
    List (AttemptResult α) → Option WeatherstackException → RetryOutcome α
  | [], last_error =>
    { result := .error (match last_error with
        | some e => e
        | none => .APIError "Failed to fetch weather data after retries")
      attempts := 0
      events := [] }
  | r :: rest, _last_error =>
    match attempt_step city r with
    | .done res => { result := res, attempts := 1, events := [] }
    | .continueWith e =>
      let o := retry_run city rest (some e)
      { o with attempts := o.attempts + 1 }

/-- `WeatherstackService.get_current_weather`: up to
`settings.RETRY_MAX_ATTEMPTS` attempts (backoff sleeps elided — they
carry no state relevant here). -/
def get_current_weather (city : String) (env : List (AttemptResult α)) : RetryOutcome α :=
  retry_run city (env.take RETRY_MAX_ATTEMPTS) none

/-! ## Request orchestrator — `src/app/api/routes/weather.py`

`get_weather` composed over the cache, the breaker and the upstream
call.  The upstream invocation `circuit_breaker.call(
weatherstack_service.get_current_weather, city)` is parameterised by
what that coroutine would produce if invoked (`UpstreamResult`).  Every
`time.time()` read within one request is the same `now` (time is not
advanced inside the handler), so all recorded durations are 0.  The
trace `events` lists the handler's `metrics.record_*` calls in order. -/

/-- What `weatherstack_service.get_current_weather(city)` would do if
invoked: return data, raise a `WeatherstackException`, or raise some
other exception (the route's final `except Exception` path). -/
inductive UpstreamResult (α : Type)
  | ok (data : α)
  | wsError (e : WeatherstackException)
  | unexpected (msg : String)
deriving DecidableEq, Repr

/-- The `metadata` dict of the response envelope, after
`_build_response` adds `circuit_breaker_state`.  `retry_attempts` is
present only on the api-success path (the handler hardcodes `0`). -/
structure RouteMetadata where
  cached : Bool
  stale : Bool
  age_seconds : ℚ
  source : String
  retry_attempts : Option Nat
  circuit_breaker_state : String
deriving DecidableEq, Repr

/-- `_build_response` for a metadata dict coming from the cache. -/
def buildMetadata (md : CacheMetadata) (cb : CircuitBreaker) : RouteMetadata :=
  ⟨md.cached, md.stale, md.age_seconds, md.source, none, cb.state.value⟩

/-- What the handler produces: a 200 envelope or a raised
`HTTPException(status_code, detail)`. -/
inductive RouteResult (α : Type)
  | ok (data : α) (metadata : RouteMetadata)
  | httpError (status_code : Nat) (detail : String)
deriving DecidableEq, Repr

/-- Full observable outcome of one `get_weather` invocation: response,
final cache and breaker states, metric-call trace, and the number of
`cache.get_stale` consultations performed. -/
structure RouteOutcome (α : Type) where
  result : RouteResult α
  cache : CacheManager α
  breaker : CircuitBreaker
  events : List MetricEvent
  stale_lookups : Nat
deriving DecidableEq, Repr

/-- `get_weather` (the `/weather` handler).  Control flow from the
source: empty/whitespace city → 400 before the timer starts; fresh
cache hit → return; miss → `record_cache_miss`, `record_request`,
breaker-guarded upstream call; `CircuitBreakerOpenError` → stale
fallback or 503; `WeatherstackException` → stale fallback or its
`status_code`; any other exception → stale fallback or 500. -/
def get_weather (city : String) (cache : CacheManager α) (circuit_breaker : CircuitBreaker)
    (now : Time) (upstream : UpstreamResult α) : RouteOutcome α :=
  if pyStrip city = "" then
    -- `if not city or not city.strip(): raise HTTPException(400, ...)`
    -- (`not city` alone is subsumed: an empty string also strips empty)
    { result := .httpError 400 "City parameter is required"
      cache := cache, breaker := circuit_breaker, events := [], stale_lookups := 0 }
  else
    let city := pyStrip city
    let cache_key := cache.generate_key city
    match cache.get now cache_key with
    | some cached_response =>
      -- fresh hit: record_cache_hit; record_response_time; get_with_metadata
      let (_, metadata) := cache.get_with_metadata now cache_key
      { result := .ok cached_response (buildMetadata metadata circuit_breaker)
        cache := cache, breaker := circuit_breaker
        events := [.cacheHit, .responseTime 0], stale_lookups := 0 }
    | none =>
      -- record_cache_miss; then inside the try: record_request; breaker call
      let (allow, cb) := circuit_breaker.should_attempt_request now
      if allow then
        match upstream with
        | .ok weather_data =>
          let cb := cb.record_success now
          let cache := cache.set now cache_key weather_data
          { result := .ok weather_data ⟨false, false, 0, "api", some 0, cb.state.value⟩
            cache := cache, breaker := cb
            events := [.cacheMiss, .request, .responseTime 0], stale_lookups := 0 }
        | .wsError e =>
          -- except WeatherstackException: record_error(type name); stale fallback
          let cb := cb.record_failure now
          match cache.get_stale now cache_key with
          | (some stale_data, stale_metadata) =>
            { result := .ok stale_data (buildMetadata stale_metadata cb)
              cache := cache, breaker := cb
              events := [.cacheMiss, .request, .error e.typeName,
                .staleFallback, .responseTime 0]
              stale_lookups := 1 }
          | (none, _) =>
            { result := .httpError e.status_code e.message
              cache := cache, breaker := cb
              events := [.cacheMiss, .request, .error e.typeName, .responseTime 0]
              stale_lookups := 1 }
        | .unexpected _ =>
          -- except Exception: record_error("unexpected_error"); stale fallback
          let cb := cb.record_failure now
          match cache.get_stale now cache_key with
          | (some stale_data, stale_metadata) =>
            { result := .ok stale_data (buildMetadata stale_metadata cb)
              cache := cache, breaker := cb
              events := [.cacheMiss, .request, .error "unexpected_error",
                .staleFallback, .responseTime 0]
              stale_lookups := 1 }
          | (none, _) =>
            { result := .httpError 500 "Internal server error"
              cache := cache, breaker := cb
              events := [.cacheMiss, .request, .error "unexpected_error",
                .responseTime 0]
              stale_lookups := 1 }
      else
        -- except CircuitBreakerOpenError: record_error; stale fallback or 503
        match cache.get_stale now cache_key with
        | (some stale_data, stale_metadata) =>
          { result := .ok stale_data (buildMetadata stale_metadata cb)
            cache := cache, breaker := cb
            events := [.cacheMiss, .request, .error "circuit_breaker_open",
              .staleFallback, .responseTime 0]
            stale_lookups := 1 }
        | (none, _) =>
          { result := .httpError 503
              "Service temporarily unavailable. Please try again later."
            cache := cache, breaker := cb
            events := [.cacheMiss, .request, .error "circuit_breaker_open",
              .responseTime 0]
            stale_lookups := 1 }

/-! ## General lemmas -/

/-- The retry loop makes no metrics calls whatsoever: neither a first
attempt nor a retry touches the registry in `weatherstack.py`. -/
theorem retry_run_events (city : String) (l : List (AttemptResult α)) :
    ∀ le, (retry_run city l le).events = [] := by
  induction l with
  | nil => intro le; rfl
  | cons r rest ih =>
    intro le
    cases h : attempt_step city r with
    | done res => simp [retry_run, h]
    | continueWith e => simp [retry_run, h, ih (some e)]

namespace CacheDict

theorem get_nil (k : String) : get ([] : CacheDict α) k = none := rfl

theorem get_cons (p : String × CacheEntry α) (d : CacheDict α) (k : String) :
    get (p :: d) k = if p.1 = k then some p.2 else get d k := by
  by_cases h : p.1 = k <;> simp [get, List.find?_cons, h]

theorem erase_cons (p : String × CacheEntry α) (d : CacheDict α) (k : String) :
    erase (p :: d) k = if p.1 = k then erase d k else p :: erase d k := by
  by_cases h : p.1 = k <;> simp [erase, List.filter_cons, h]

/-- A key never survives its own `erase`. -/
theorem get_erase_self (d : CacheDict α) (k : String) : get (erase d k) k = none := by
  induction d with
  | nil => rfl
  | cons p d ih =>
    rw [erase_cons]
    by_cases h : p.1 = k
    · rw [if_pos h]; exact ih
    · rw [if_neg h, get_cons, if_neg h]; exact ih

/-- `erase` of one key does not affect lookups of another. -/
theorem get_erase_ne (d : CacheDict α) (k k' : String) (h : k' ≠ k) :
    get (erase d k) k' = get d k' := by
  induction d with
  | nil => rfl
  | cons p d ih =>
    rw [erase_cons, get_cons]
    by_cases hp : p.1 = k
    · have hp' : p.1 ≠ k' := by rw [hp]; exact fun hk => h hk.symm
      rw [if_pos hp, if_neg hp']
      exact ih
    · rw [if_neg hp, get_cons]
      by_cases hp' : p.1 = k'
      · rw [if_pos hp', if_pos hp']
      · rw [if_neg hp', if_neg hp']
        exact ih

/-- A successful lookup witnesses `any` on the key predicate. -/
theorem any_of_get_eq_some (d : CacheDict α) (k : String) (e : CacheEntry α)
    (h : get d k = some e) : d.any (fun p => p.1 = k) = true := by
  induction d with
  | nil => simp [get] at h
  | cons p d ih =>
    rw [get_cons] at h
    by_cases hp : p.1 = k
    · simp [hp]
    · rw [if_neg hp] at h
      simp [hp, ih h]

/-- A failed `any` on the key predicate forces a failed lookup. -/
theorem get_eq_none_of_not_any (d : CacheDict α) (k : String)
    (h : d.any (fun p => p.1 = k) = false) : get d k = none := by
  induction d with
  | nil => rfl
  | cons p d ih =>
    simp only [List.any_cons, Bool.or_eq_false_iff] at h
    rw [get_cons, if_neg (of_decide_eq_false h.1)]
    exact ih h.2

theorem get_append (d d' : CacheDict α) (k : String) :
    get (d ++ d') k
      = match get d k with
        | some e => some e
        | none => get d' k := by
  induction d with
  | nil => simp [get_nil]
  | cons p d ih =>
    rw [List.cons_append, get_cons, get_cons]
    by_cases hp : p.1 = k
    · rw [if_pos hp, if_pos hp]
    · rw [if_neg hp, if_neg hp, ih]

/-- Lookup of the inserted key after the in-place replacement performed
by `insert` on a present key. -/
theorem get_map_replace (d : CacheDict α) (k : String) (e : CacheEntry α) :
    get (d.map (fun p => if p.1 = k then (k, e) else p)) k
      = if d.any (fun p => p.1 = k) then some e else none := by
  induction d with
  | nil => rfl
  | cons p d ih =>
    rw [List.map_cons]
    by_cases hp : p.1 = k
    · simp [hp, get_cons]
    · rw [if_neg hp, get_cons, if_neg hp, ih, List.any_cons,
        decide_eq_false hp, Bool.false_or]

/-- Lookup of an unrelated key after the in-place replacement. -/
theorem get_map_replace_ne (d : CacheDict α) (k k' : String) (e : CacheEntry α)
    (h : k' ≠ k) :
    get (d.map (fun p => if p.1 = k then (k, e) else p)) k' = get d k' := by
  induction d with
  | nil => rfl
  | cons p d ih =>
    rw [List.map_cons]
    by_cases hp : p.1 = k
    · have hp' : p.1 ≠ k' := by rw [hp]; exact Ne.symm h
      rw [if_pos hp, get_cons, get_cons,
        if_neg (show (k, e).1 ≠ k' from Ne.symm h), if_neg hp']
      exact ih
    · rw [if_neg hp, get_cons, get_cons]
      by_cases hp' : p.1 = k'
      · rw [if_pos hp', if_pos hp']
      · rw [if_neg hp', if_neg hp']
        exact ih

/-- After `d[k] = e`, looking up `k` yields `e` (replace or append). -/
theorem get_insert_self (d : CacheDict α) (k : String) (e : CacheEntry α) :
    get (insert d k e) k = some e := by
  unfold insert
  by_cases hany : d.any (fun p => p.1 = k) = true
  · rw [if_pos hany, get_map_replace, if_pos hany]
  · rw [if_neg hany, get_append,
      get_eq_none_of_not_any d k (by
        simp only [Bool.not_eq_true] at hany; exact hany)]
    simp [get_cons]

/-- After `d[k] = e`, lookups of other keys are unchanged. -/
theorem get_insert_ne (d : CacheDict α) (k k' : String) (e : CacheEntry α)
    (h : k' ≠ k) : get (insert d k e) k' = get d k' := by
  unfold insert
  by_cases hany : d.any (fun p => p.1 = k) = true
  · rw [if_pos hany]
    exact get_map_replace_ne d k k' e h
  · rw [if_neg hany, get_append]
    cases hg : get d k' with
    | none =>
      rw [get_cons]
      rw [if_neg (Ne.symm h)]
      rfl
    | some e' => rfl

/-- Replacing an existing key keeps the dict size. -/
theorem length_insert_of_any (d : CacheDict α) (k : String) (e : CacheEntry α)
    (hany : d.any (fun p => p.1 = k) = true) :
    (insert d k e).length = d.length := by
  rw [insert, if_pos hany, List.length_map]

theorem length_erase_le (d : CacheDict α) (k : String) :
    (erase d k).length ≤ d.length :=
  List.length_filter_le _ _

/-- Erasing a present key strictly shrinks the dict. -/
theorem length_erase_lt_of_any (d : CacheDict α) (k : String)
    (hany : d.any (fun p => p.1 = k) = true) :
    (erase d k).length < d.length := by
  induction d with
  | nil => simp at hany
  | cons p d ih =>
    rw [erase_cons]
    by_cases hp : p.1 = k
    · rw [if_pos hp]
      exact Nat.lt_succ_of_le (length_erase_le d k)
    · rw [if_neg hp]
      have hd := hany
      rw [List.any_cons] at hd
      simp only [hp, decide_eq_false hp, Bool.false_or] at hd
      simpa [List.length_cons] using Nat.succ_lt_succ (ih hd)

/-- Every member of `d.insert k e` is a member of `d` or the new pair. -/
theorem mem_insert (d : CacheDict α) (k : String) (e : CacheEntry α)
    (q : String × CacheEntry α) (hq : q ∈ insert d k e) :
    q ∈ d ∨ q = (k, e) := by
  unfold insert at hq
  by_cases hany : d.any (fun p => p.1 = k) = true
  · rw [if_pos hany] at hq
    rcases List.mem_map.mp hq with ⟨p, hp, hfp⟩
    by_cases hk : p.1 = k
    · right; rw [← hfp, if_pos hk]
    · left; rwa [← hfp, if_neg hk]
  · rw [if_neg hany] at hq
    rcases List.mem_append.mp hq with hmem | hmem
    · exact Or.inl hmem
    · exact Or.inr (by simpa using hmem)

/-- The key selected for eviction is present in the dict. -/
theorem oldest_key_any (d : CacheDict α) (k : String)
    (h : oldest_key d = some k) : d.any (fun p => p.1 = k) = true := by
  have go_mem : ∀ (rest : CacheDict α) (k0 : String) (t : Time),
      oldest_key.go rest k0 t = k0
        ∨ ∃ p ∈ rest, p.1 = oldest_key.go rest k0 t := by
    intro rest
    induction rest with
    | nil => intro k0 t; exact Or.inl rfl
    | cons q rest ih =>
      intro k0 t
      simp only [oldest_key.go]
      by_cases hq : q.2.timestamp < t
      · rw [if_pos hq]
        rcases ih q.1 q.2.timestamp with h1 | hex
        · exact Or.inr ⟨q, List.mem_cons_self q rest, h1.symm⟩
        · rcases hex with ⟨p, hp, hp1⟩
          exact Or.inr ⟨p, List.mem_cons_of_mem q hp, hp1⟩
      · rw [if_neg hq]
        rcases ih k0 t with h1 | hex
        · exact Or.inl h1
        · rcases hex with ⟨p, hp, hp1⟩
          exact Or.inr ⟨p, List.mem_cons_of_mem q hp, hp1⟩
  cases d with
  | nil => simp [oldest_key] at h
  | cons p d =>
    simp only [oldest_key, Option.some.injEq] at h
    rcases go_mem d p.1 p.2.timestamp with h1 | hex
    · have hpk : p.1 = k := h1.symm.trans h
      exact List.any_eq_true.mpr ⟨p, List.mem_cons_self p d, by simp [hpk]⟩
    · rcases hex with ⟨q, hq, hq1⟩
      have hqk : q.1 = k := by rw [hq1, h]
      exact List.any_eq_true.mpr
        ⟨q, List.mem_cons_of_mem p hq, by simp [hqk]⟩

end CacheDict

/-- `_cleanup_expired` removes nothing when every entry is within the
stale horizon. -/
theorem cleanup_expired_eq_self {α : Type} (m : CacheManager α) (now : Time)
    (h : ∀ p ∈ m.cache, p.2.age_seconds now ≤ m.stale_max_age_seconds) :
    m.cleanup_expired now = m := by
  unfold CacheManager.cleanup_expired
  have hfilter : m.cache.filter
      (fun p => decide ¬p.2.age_seconds now > m.stale_max_age_seconds) = m.cache := by
    rw [List.filter_eq_self]
    intro p hp
    simp only [decide_eq_true_eq]
    exact not_lt.mpr (h p hp)
  rw [hfilter]

/-! ## Claims about the circuit breaker's verdict for client errors (C1) -/

/-- C1, counterexample: a single `WeatherstackNotFoundError` raised
through `CircuitBreaker.call` is recorded as a FAILURE, not a success —
the default (fresh, Closed) breaker immediately transitions to Open
(failure rate 1/1 ≥ 0.5) with `stats.failures = 1`, refuting both that
the state stays Closed and that the counter is unchanged. -/
theorem c1_notfound_opens_breaker_cex :
    (((CircuitBreaker.init.call 100
        (.error (.NotFoundError "City Paris not found"))) : CallResult Unit × CircuitBreaker)).2.state
        = CircuitState.Open ∧
    ((CircuitBreaker.init.call 100
        (.error (.NotFoundError "City Paris not found"))) : CallResult Unit × CircuitBreaker).2.stats.failures
        = 1 := by
  norm_num [CircuitBreaker.call, CircuitBreaker.should_attempt_request,
    CircuitBreaker.record_failure, CircuitBreaker.pushRecent,
    CircuitBreaker.calculate_failure_rate, CircuitBreaker.init,
    CIRCUIT_BREAKER_FAILURE_THRESHOLD, CIRCUIT_BREAKER_FAILURE_RATE_THRESHOLD,
    CIRCUIT_BREAKER_RECOVERY_TIMEOUT]

/-- C1, amended: `CircuitBreaker.call` records a failure verdict for
EVERY exception the wrapped function raises — `NotFound` and `Auth`
included (the handler is a blanket `except Exception`).  Consequently a
fresh Closed breaker opens on its very first `NotFound` (or any other)
failure, with `stats.failures = 1` and `opened_at` set, rather than
staying Closed. -/
theorem c1_every_exception_is_a_failure (now : Time) (e : WeatherstackException) :
    ((CircuitBreaker.init.call now (.error e) : CallResult Unit × CircuitBreaker)).1
        = .raised e ∧
    ((CircuitBreaker.init.call now (.error e) : CallResult Unit × CircuitBreaker)).2.state
        = CircuitState.Open ∧
    ((CircuitBreaker.init.call now (.error e) : CallResult Unit × CircuitBreaker)).2.stats.failures
        = 1 ∧
    ((CircuitBreaker.init.call now (.error e) : CallResult Unit × CircuitBreaker)).2.opened_at
        = some now := by
  norm_num [CircuitBreaker.call, CircuitBreaker.should_attempt_request,
    CircuitBreaker.record_failure, CircuitBreaker.pushRecent,
    CircuitBreaker.calculate_failure_rate, CircuitBreaker.init,
    CIRCUIT_BREAKER_FAILURE_THRESHOLD, CIRCUIT_BREAKER_FAILURE_RATE_THRESHOLD,
    CIRCUIT_BREAKER_RECOVERY_TIMEOUT]

/-! ## Claim about non-retryable error kinds in the retry loop (C3) -/

/-- C3, evaluation at the failing input: a city whose every attempt
returns HTTP 200 with in-body `{error: {code: 404}}`.  The claim (and
the code's own `_is_retryable_error` plus `get_current_weather`'s
docstring) says the first attempt must raise `WeatherstackNotFoundError`
(status 404) with no second attempt; instead the exception — a sibling,
not a subclass, of `WeatherstackAPIError` — falls through to the
`except Exception` catch-all, is wrapped as a retryable
`WeatherstackAPIError`, all 3 attempts run, and the surfaced error
carries status 500. -/
theorem c3_inbody_notfound_is_retried :
    (get_current_weather (α := Unit) "Nowhere"
      [.bodyError (some 404) "x", .bodyError (some 404) "x",
        .bodyError (some 404) "x"]).attempts = 3 ∧
    (get_current_weather (α := Unit) "Nowhere"
      [.bodyError (some 404) "x", .bodyError (some 404) "x",
        .bodyError (some 404) "x"]).result
      = .error (.APIError "Unexpected error: City Nowhere not found") ∧
    (match (get_current_weather (α := Unit) "Nowhere"
      [.bodyError (some 404) "x", .bodyError (some 404) "x",
        .bodyError (some 404) "x"]).result with
      | .error e => e.status_code
      | .ok _ => 0) = 500 := by
  norm_num [get_current_weather, retry_run, attempt_step, fetch_weather_once,
    is_retryable_error, RETRY_MAX_ATTEMPTS, List.take, WeatherstackException.message,
    WeatherstackException.status_code]
  all_goals decide

/-! ## Claim about the five-sample inhibition of the rate trigger (C4) -/

/-- C4, counterexample: the code has NO minimum-sample inhibition.  With
only one stored outcome (fewer than 5), a recorded failure opens the
default Closed breaker through the rate trigger although the
consecutive-failure count (1) is far below `failure_threshold` (5). -/
theorem c4_rate_trigger_without_five_samples_cex :
    (CircuitBreaker.init.record_failure 7).state = CircuitState.Open ∧
    (CircuitBreaker.init.record_failure 7).stats.failures = 1 ∧
    (CircuitBreaker.init.record_failure 7).recent_requests.length = 1 ∧
    (CircuitBreaker.init.record_failure 7).recent_requests.length < 5 ∧
    (CircuitBreaker.init.record_failure 7).stats.failures
        < CircuitBreaker.init.failure_threshold := by
  norm_num [CircuitBreaker.record_failure, CircuitBreaker.pushRecent,
    CircuitBreaker.calculate_failure_rate, CircuitBreaker.init,
    CIRCUIT_BREAKER_FAILURE_THRESHOLD, CIRCUIT_BREAKER_FAILURE_RATE_THRESHOLD,
    CIRCUIT_BREAKER_RECOVERY_TIMEOUT]

/-- C4, amended: `_calculate_failure_rate` applies to ANY nonempty ring
buffer — rate-based opening is not inhibited below 5 samples.  Any
Closed breaker with an empty buffer and a rate threshold ≤ 1 is opened
by its first recorded failure via the rate trigger (the single sample
gives rate 1), regardless of how far `stats.failures` is from
`failure_threshold`. -/
theorem c4_no_sample_floor_for_rate_trigger (cb : CircuitBreaker) (now : Time)
    (hstate : cb.state = CircuitState.Closed)
    (hbuf : cb.recent_requests = [])
    (hcap : cb.max_recent_requests = 20)
    (hrate : cb.failure_rate_threshold ≤ 1) :
    (cb.record_failure now).state = CircuitState.Open := by
  simp only [CircuitBreaker.record_failure, CircuitBreaker.pushRecent, hbuf, hstate, hcap,
    CircuitBreaker.calculate_failure_rate]
  norm_num [hrate]

/-- C4, witness for the amended theorem at the default breaker. -/
theorem c4_no_sample_floor_witness :
    (CircuitBreaker.init.record_failure 7).state = CircuitState.Open :=
  c4_no_sample_floor_for_rate_trigger CircuitBreaker.init 7 rfl rfl rfl
    (by norm_num [CircuitBreaker.init, CIRCUIT_BREAKER_FAILURE_RATE_THRESHOLD])

/-! ## Claim about success resetting the failure counter in Closed (C5) -/

/-- C5, counterexample.  Run 1: verdicts success, success, failure,
success leave the default breaker Closed with `stats.failures = 1` —
the success did NOT reset the counter to 0.  Run 2: the 15-verdict
sequence (success, success, failure) × 5 opens the breaker through the
CONSECUTIVE-COUNT trigger (failures reaches 5 = threshold) although
successes were interleaved and the failure rate stayed at 1/3 < 0.5 —
refuting that interleaved sequences can only open via the rate
trigger. -/
theorem c5_success_does_not_reset_cex :
    (CircuitBreaker.init.record_outcomes 3 [true, true, false, true]).state
        = CircuitState.Closed ∧
    (CircuitBreaker.init.record_outcomes 3 [true, true, false, true]).stats.failures = 1 ∧
    (CircuitBreaker.init.record_outcomes 3
      [true, true, false, true, true, false, true, true, false,
        true, true, false, true, true, false]).state = CircuitState.Open ∧
    (CircuitBreaker.init.record_outcomes 3
      [true, true, false, true, true, false, true, true, false,
        true, true, false, true, true, false]).stats.failures = 5 ∧
    (CircuitBreaker.init.record_outcomes 3
      [true, true, false, true, true, false, true, true, false,
        true, true, false, true, true, false]).calculate_failure_rate < 1/2 := by
  norm_num [CircuitBreaker.record_outcomes, CircuitBreaker.record_outcome, List.foldl,
    CircuitBreaker.record_failure, CircuitBreaker.record_success, CircuitBreaker.pushRecent,
    CircuitBreaker.calculate_failure_rate, CircuitBreaker.init,
    CIRCUIT_BREAKER_FAILURE_THRESHOLD, CIRCUIT_BREAKER_FAILURE_RATE_THRESHOLD,
    CIRCUIT_BREAKER_RECOVERY_TIMEOUT]

/-- C5, amended: a success recorded while the breaker is Closed leaves
`stats.failures` unchanged — the counter is cumulative and is cleared
only by the HalfOpen→Closed recovery transition.  Hence the "count"
trigger compares a cumulative total, and failure sequences interleaved
with successes can still open the breaker through it (see the
counterexample run). -/
theorem c5_closed_success_keeps_failures (cb : CircuitBreaker) (now : Time)
    (hstate : cb.state = CircuitState.Closed) :
    (cb.record_success now).stats.failures = cb.stats.failures ∧
    (cb.record_success now).state = CircuitState.Closed := by
  simp [CircuitBreaker.record_success, CircuitBreaker.pushRecent, hstate]

/-- C5, witness for the amended theorem: a Closed breaker with one
recorded failure keeps `stats.failures = 1` across a success. -/
theorem c5_closed_success_keeps_failures_witness :
    ((CircuitBreaker.init.record_outcomes 3 [true, true, false]).record_success 4).stats.failures
        = (CircuitBreaker.init.record_outcomes 3 [true, true, false]).stats.failures ∧
    ((CircuitBreaker.init.record_outcomes 3 [true, true, false]).record_success 4).state
        = CircuitState.Closed :=
  c5_closed_success_keeps_failures _ 4 (by
    norm_num [CircuitBreaker.record_outcomes, CircuitBreaker.record_outcome, List.foldl,
      CircuitBreaker.record_failure, CircuitBreaker.record_success, CircuitBreaker.pushRecent,
      CircuitBreaker.calculate_failure_rate, CircuitBreaker.init,
      CIRCUIT_BREAKER_FAILURE_THRESHOLD, CIRCUIT_BREAKER_FAILURE_RATE_THRESHOLD,
      CIRCUIT_BREAKER_RECOVERY_TIMEOUT])

/-! ## Claim about retries incrementing the retry counter (C6) -/

/-- C6, counterexample: a request whose first attempt times out and
whose second attempt succeeds.  `get_current_weather` performs 2
attempts and returns the payload, but `record_retry` is never called —
the retry loop makes no metrics calls at all — so `retry_attempts_total`
is 0 afterwards, not 1 as claimed. -/
theorem c6_retry_counter_stays_zero_cex :
    (get_current_weather (α := Unit) "Paris" [.timeoutExc "t", .payload ()]).attempts = 2 ∧
    (get_current_weather (α := Unit) "Paris" [.timeoutExc "t", .payload ()]).result = .ok () ∧
    ((get_current_weather (α := Unit) "Paris"
        [.timeoutExc "t", .payload ()]).events.countP MetricEvent.isRetryTick) = 0 ∧
    (Metrics.init.applyEvents
        (get_current_weather (α := Unit) "Paris"
          [.timeoutExc "t", .payload ()]).events).retry_attempts_total = 0 := by
  norm_num [get_current_weather, retry_run, attempt_step, fetch_weather_once,
    is_retryable_error, RETRY_MAX_ATTEMPTS, List.take, Metrics.applyEvents,
    Metrics.init, List.foldl]

/-- C6, amended: `get_current_weather` never invokes any metrics
recorder — in particular no retry, on any request, increments
`record_retry`, so `retry_attempts_total` is unchanged by the service no
matter what the attempts do. -/
theorem c6_service_never_records_retries (city : String)
    (env : List (AttemptResult α)) (m : Metrics) :
    ((get_current_weather city env).events.countP MetricEvent.isRetryTick) = 0 ∧
    (m.applyEvents (get_current_weather city env).events).retry_attempts_total
        = m.retry_attempts_total := by
  have h := retry_run_events city (env.take RETRY_MAX_ATTEMPTS)
      (none (α := WeatherstackException))
  constructor
  · simp [get_current_weather, h]
  · simp [get_current_weather, h, Metrics.applyEvents]

/-! ## Claim about the breaker recovery discipline (C7) -/

/-- C7 (confirmed): after the breaker opens at `t0` (> 0; `time.time()`
is positive, and `opened_at == 0.0` would be falsy in Python), every
admission check strictly before `t0 + recovery_timeout` is rejected with
`BreakerOpen` and the breaker (hence the wrapped function) is untouched;
an admission check at or after `t0 + recovery_timeout` transitions to
HalfOpen and admits the call; a success recorded in HalfOpen closes the
breaker, clears `stats.failures` and `opened_at`; a failure in HalfOpen
reopens it with `opened_at` refreshed to the current time. -/
theorem c7_breaker_recovery (cb cb' : CircuitBreaker) (t0 now1 now2 now3 : Time)
    (out : WrappedOutcome Unit)
    (hopen : cb.state = CircuitState.Open)
    (ht0 : cb.opened_at = some t0)
    (hpos : 0 < t0) :
    (now1 - t0 < cb.recovery_timeout → cb.call now1 out = (.breakerOpen, cb)) ∧
    (cb.recovery_timeout ≤ now2 - t0 →
      (cb.should_attempt_request now2).1 = true ∧
      (cb.should_attempt_request now2).2.state = CircuitState.HalfOpen ∧
      (cb.call now2 out).1 ≠ CallResult.breakerOpen) ∧
    (cb'.state = CircuitState.HalfOpen →
      ((cb'.record_success now3).state = CircuitState.Closed ∧
        (cb'.record_success now3).stats.failures = 0 ∧
        (cb'.record_success now3).opened_at = none) ∧
      ((cb'.record_failure now3).state = CircuitState.Open ∧
        (cb'.record_failure now3).opened_at = some now3)) := by
  refine ⟨?_, ?_, ?_⟩
  · intro h1
    have hcond : ¬ (t0 ≠ 0 ∧ now1 - t0 ≥ cb.recovery_timeout) :=
      fun hc => absurd hc.2 (not_le.mpr h1)
    simp [CircuitBreaker.call, CircuitBreaker.should_attempt_request, hopen, ht0,
      if_neg hcond]
  · intro h2
    have hcond : t0 ≠ 0 ∧ now2 - t0 ≥ cb.recovery_timeout := ⟨hpos.ne', h2⟩
    refine ⟨?_, ?_, ?_⟩
    · simp [CircuitBreaker.should_attempt_request, hopen, ht0, if_pos hcond]
    · simp [CircuitBreaker.should_attempt_request, hopen, ht0, if_pos hcond]
    · cases out with
      | ok v =>
        simp [CircuitBreaker.call, CircuitBreaker.should_attempt_request, hopen, ht0,
          if_pos hcond]
      | error e =>
        simp [CircuitBreaker.call, CircuitBreaker.should_attempt_request, hopen, ht0,
          if_pos hcond]
  · intro hc'
    refine ⟨⟨?_, ?_, ?_⟩, ?_, ?_⟩ <;>
      simp [CircuitBreaker.record_success, CircuitBreaker.record_failure,
        CircuitBreaker.pushRecent, hc']

/-- A breaker that opened at instant 10 (otherwise the defaults). -/
def openBreakerW : CircuitBreaker :=
  { CircuitBreaker.init with state := .Open, opened_at := some 10 }

/-- A breaker probing recovery (HalfOpen) that had opened at 10. -/
def halfOpenBreakerW : CircuitBreaker :=
  { CircuitBreaker.init with state := .HalfOpen, opened_at := some 10 }

/-- C7, witness: with `recovery_timeout = 60`, opened at 10 — the check
at 30 is rejected leaving the breaker unchanged, the check at 70 moves
to HalfOpen, a success at 80 closes, a failure at 80 reopens with
`opened_at = 80`. -/
theorem c7_breaker_recovery_witness :
    openBreakerW.call 30 (.ok ()) = (.breakerOpen, openBreakerW) ∧
    (openBreakerW.should_attempt_request 70).1 = true ∧
    (openBreakerW.should_attempt_request 70).2.state = CircuitState.HalfOpen ∧
    (halfOpenBreakerW.record_success 80).state = CircuitState.Closed ∧
    (halfOpenBreakerW.record_success 80).stats.failures = 0 ∧
    (halfOpenBreakerW.record_success 80).opened_at = none ∧
    (halfOpenBreakerW.record_failure 80).state = CircuitState.Open ∧
    (halfOpenBreakerW.record_failure 80).opened_at = some 80 := by
  have h := c7_breaker_recovery openBreakerW halfOpenBreakerW 10 30 70 80 (.ok ())
    rfl rfl (by norm_num)
  have h1 := h.1 (by
    norm_num [openBreakerW, CircuitBreaker.init, CIRCUIT_BREAKER_RECOVERY_TIMEOUT])
  have h2 := h.2.1 (by
    norm_num [openBreakerW, CircuitBreaker.init, CIRCUIT_BREAKER_RECOVERY_TIMEOUT])
  have h3 := h.2.2 rfl
  exact ⟨h1, h2.1, h2.2.1, h3.1.1, h3.1.2.1, h3.1.2.2, h3.2.1, h3.2.2⟩

/-! ## Claim about the two-horizon cache semantics (C8) -/

/-- C8 (confirmed): for a key holding an entry of age `a`, `get` returns
the payload iff `a ≤ ttl` (else `none`); `get_stale` returns the payload
iff `a ≤ stale_max_age`; and — in the returned case — its metadata has
`stale = true` iff `a > ttl`, with `source = "cache_fallback"` iff stale
and `"cache"` otherwise. -/
theorem c8_two_horizon_cache {α : Type} (m : CacheManager α) (now : Time) (key : String)
    (entry : CacheEntry α)
    (h : m.cache.get key = some entry) :
    (m.get now key
        = if entry.age_seconds now ≤ m.ttl_seconds then some entry.data else none) ∧
    ((m.get_stale now key).1
        = if entry.age_seconds now ≤ m.stale_max_age_seconds then some entry.data
          else none) ∧
    (entry.age_seconds now ≤ m.stale_max_age_seconds →
      (((m.get_stale now key).2.stale = true) ↔ m.ttl_seconds < entry.age_seconds now) ∧
      ((m.get_stale now key).2.source
          = if m.ttl_seconds < entry.age_seconds now then "cache_fallback" else "cache") ∧
      (((m.get_stale now key).2.source = "cache_fallback")
          ↔ (m.get_stale now key).2.stale = true)) := by
  unfold CacheManager.get CacheManager.get_stale
  rw [h]
  dsimp only
  refine ⟨rfl, ?_, ?_⟩
  · split <;> rfl
  · intro hsm
    rw [if_pos hsm]
    refine ⟨by simp, rfl, ?_⟩
    by_cases hst : m.ttl_seconds < entry.age_seconds now
    · simp [hst]
    · simp [hst]

/-- A cache holding one entry created at instant 0 (defaults
`ttl=300`, `stale_max_age=3600`). -/
def cacheW : CacheManager String :=
  { cache := [("weather:paris", ⟨"P", 0⟩)]
    ttl_seconds := CACHE_TTL_SECONDS
    stale_max_age_seconds := STALE_CACHE_MAX_AGE_SECONDS
    maxsize := 1000 }

/-- C8, witness: at age 400 (ttl 300, stale max 3600) the fresh lookup
misses while the stale-tolerant lookup returns the payload marked
`stale`, `source = "cache_fallback"`. -/
theorem c8_two_horizon_cache_witness :
    cacheW.get 400 "weather:paris" = none ∧
    (cacheW.get_stale 400 "weather:paris").1 = some "P" ∧
    (cacheW.get_stale 400 "weather:paris").2.stale = true ∧
    (cacheW.get_stale 400 "weather:paris").2.source = "cache_fallback" := by
  have h := c8_two_horizon_cache cacheW 400 "weather:paris" ⟨"P", 0⟩ rfl
  have hage : (⟨"P", 0⟩ : CacheEntry String).age_seconds 400 = 400 := by
    norm_num [CacheEntry.age_seconds]
  have h3 := h.2.2 (by
    rw [hage]; norm_num [cacheW, STALE_CACHE_MAX_AGE_SECONDS])
  refine ⟨?_, ?_, ?_, ?_⟩
  · rw [h.1, hage, if_neg]
    norm_num [cacheW, CACHE_TTL_SECONDS]
  · rw [h.2.1, hage, if_pos]
    norm_num [cacheW, STALE_CACHE_MAX_AGE_SECONDS]
  · rw [h3.1.2]
    rw [hage]; norm_num [cacheW, CACHE_TTL_SECONDS]
  · rw [h3.2.1, hage, if_pos]
    norm_num [cacheW, CACHE_TTL_SECONDS]

/-! ## Claim about response-time accounting on every exit path (C9) -/

/-- C9, counterexample: the empty-city request.  The handler raises the
400 before `start_time` is even taken — `record_response_time` is called
ZERO times on this exit path, not once as claimed (the claim explicitly
includes the empty-city BadRequest path). -/
theorem c9_empty_city_no_response_time_cex :
    (get_weather (α := Unit) "   " (CacheManager.init Unit) CircuitBreaker.init 0
      (.ok ())).result = .httpError 400 "City parameter is required" ∧
    ((get_weather (α := Unit) "   " (CacheManager.init Unit) CircuitBreaker.init 0
      (.ok ())).events.countP MetricEvent.isResponseTime) = 0 := by
  have h1 : pyStrip "   " = "" := by decide
  norm_num [get_weather, h1]

/-- C9, amended: the empty/whitespace-city 400 path calls
`record_response_time` zero times; every OTHER exit path — cache hit,
fresh success, breaker open with or without stale data, Weatherstack
error with or without stale data, unexpected error with or without stale
data — calls it exactly once. -/
theorem c9_response_time_once_after_validation {α : Type} (city : String)
    (cache : CacheManager α) (cb : CircuitBreaker) (now : Time)
    (upstream : UpstreamResult α) :
    (pyStrip city = "" →
      ((get_weather city cache cb now upstream).events.countP
        MetricEvent.isResponseTime) = 0) ∧
    (pyStrip city ≠ "" →
      ((get_weather city cache cb now upstream).events.countP
        MetricEvent.isResponseTime) = 1) := by
  constructor
  · intro h
    simp [get_weather, h]
  · intro h
    unfold get_weather
    rw [if_neg h]
    dsimp only
    cases hget : cache.get now (cache.generate_key (pyStrip city)) with
    | some d =>
      simp [List.countP_cons, MetricEvent.isResponseTime]
    | none =>
      dsimp only
      rcases hadm : cb.should_attempt_request now with ⟨allow, cb1⟩
      cases allow with
      | false =>
        rcases hst : cache.get_stale now (cache.generate_key (pyStrip city)) with ⟨sd, smd⟩
        cases sd <;>
          simp [hst, List.countP_cons, MetricEvent.isResponseTime]
      | true =>
        cases upstream with
        | ok d =>
          simp [List.countP_cons, MetricEvent.isResponseTime]
        | wsError e =>
          rcases hst : cache.get_stale now (cache.generate_key (pyStrip city)) with ⟨sd, smd⟩
          cases sd <;>
            simp [hst, List.countP_cons, MetricEvent.isResponseTime]
        | unexpected msg =>
          rcases hst : cache.get_stale now (cache.generate_key (pyStrip city)) with ⟨sd, smd⟩
          cases sd <;>
            simp [hst, List.countP_cons, MetricEvent.isResponseTime]

/-- C9, witness for the amended theorem: a fresh-success request for
"Paris" records the response time exactly once. -/
theorem c9_response_time_once_witness :
    ((get_weather (α := Unit) "Paris" (CacheManager.init Unit) CircuitBreaker.init 0
      (.ok ())).events.countP MetricEvent.isResponseTime) = 1 :=
  (c9_response_time_once_after_validation "Paris" (CacheManager.init Unit)
    CircuitBreaker.init 0 (.ok ())).2 (by decide)

/-! ## Claim about eviction on `set` at capacity (C10) -/

/-- C10 (confirmed): a `set` issued while the cache holds `maxsize`
entries first evicts the entry with minimal `created_at` — even when the
incoming key is already present — so replacing an existing key at
capacity removes the unrelated oldest entry and strictly shrinks the
cache.  The freshness hypothesis keeps the piggy-backed periodic
`_cleanup_expired` from removing anything further, isolating the
eviction effect (`0 ≤ stale_max_age` holds for any real
configuration). -/
theorem c10_eviction_even_on_replace {α : Type} (m : CacheManager α) (now : Time)
    (key k0 : String) (v : α) (e0 : CacheEntry α)
    (hfull : m.cache.length ≥ m.maxsize)
    (hold : CacheDict.oldest_key m.cache = some k0)
    (hne : k0 ≠ key)
    (hmem : CacheDict.get m.cache key = some e0)
    (hfresh : ∀ p ∈ m.cache, p.2.age_seconds now ≤ m.stale_max_age_seconds)
    (hsm : 0 ≤ m.stale_max_age_seconds) :
    CacheDict.get (m.set now key v).cache k0 = none ∧
    CacheDict.get (m.set now key v).cache key = some ⟨v, now⟩ ∧
    (m.set now key v).cache.length < m.cache.length := by
  have hany0 : m.cache.any (fun p => p.1 = k0) = true :=
    CacheDict.oldest_key_any m.cache k0 hold
  have hget1 : CacheDict.get (CacheDict.erase m.cache k0) key = some e0 := by
    rw [CacheDict.get_erase_ne m.cache k0 key (Ne.symm hne)]
    exact hmem
  have hany1 : (CacheDict.erase m.cache k0).any (fun p => p.1 = key) = true :=
    CacheDict.any_of_get_eq_some _ key e0 hget1
  have hset : (m.set now key v).cache
      = CacheDict.insert (CacheDict.erase m.cache k0) key ⟨v, now⟩ := by
    unfold CacheManager.set CacheManager.evict_if_needed
    rw [if_pos hfull, hold]
    dsimp only
    have hclean :
        ({ m with cache := CacheDict.insert (CacheDict.erase m.cache k0) key ⟨v, now⟩ }
          : CacheManager α).cleanup_expired now
        = { m with
            cache := CacheDict.insert (CacheDict.erase m.cache k0) key ⟨v, now⟩ } := by
      apply cleanup_expired_eq_self
      intro p hp
      rcases CacheDict.mem_insert _ key ⟨v, now⟩ p hp with hmemp | heq
      · exact hfresh p (List.mem_of_mem_filter hmemp)
      · rw [heq]
        show (⟨v, now⟩ : CacheEntry α).age_seconds now ≤ m.stale_max_age_seconds
        rw [CacheEntry.age_seconds, sub_self]
        exact hsm
    by_cases hlen :
        (CacheDict.insert (CacheDict.erase m.cache k0) key ⟨v, now⟩).length % 100 = 0
    · rw [if_pos hlen, hclean]
    · rw [if_neg hlen]
  refine ⟨?_, ?_, ?_⟩
  · rw [hset, CacheDict.get_insert_ne _ key k0 _ hne, CacheDict.get_erase_self]
  · rw [hset, CacheDict.get_insert_self]
  · rw [hset, CacheDict.length_insert_of_any _ key _ hany1]
    exact CacheDict.length_erase_lt_of_any m.cache k0 hany0

/-- A full two-slot cache: "a" (oldest, created at 1) and "b"
(created at 5). -/
def evictW : CacheManager String :=
  { cache := [("a", ⟨"A", 1⟩), ("b", ⟨"B", 5⟩)]
    ttl_seconds := 300
    stale_max_age_seconds := 3600
    maxsize := 2 }

/-- C10, witness: replacing the already-present key "b" while the cache
is at capacity evicts the unrelated oldest key "a" and shrinks the
cache from 2 entries to 1. -/
theorem c10_eviction_even_on_replace_witness :
    CacheDict.get (evictW.set 10 "b" "B2").cache "a" = none ∧
    CacheDict.get (evictW.set 10 "b" "B2").cache "b" = some ⟨"B2", 10⟩ ∧
    (evictW.set 10 "b" "B2").cache.length < evictW.cache.length :=
  c10_eviction_even_on_replace evictW 10 "b" "a" "B2" ⟨"B", 5⟩
    (by decide)
    (by decide)
    (by decide)
    (by decide)
    (by
      intro p hp
      simp only [evictW, List.mem_cons, List.not_mem_nil, or_false] at hp
      rcases hp with h1 | h1 <;>
        (rw [h1]; norm_num [CacheEntry.age_seconds, evictW]))
    (by norm_num [evictW])

/-! ## Claim about NotFound/Auth bypassing the stale cache (C2) -/

/-- C2, counterexample: a `NotFound` upstream failure while a stale
entry (age 400, within `stale_max_age`) exists for the key.  The claim
requires an immediate HTTP 404 with NO stale-cache consultation; the
handler instead consults `get_stale` (one lookup) and returns HTTP 200
with the stale payload, `source = "cache_fallback"`. -/
theorem c2_notfound_serves_stale_cex :
    (get_weather (α := String) "Paris" cacheW CircuitBreaker.init 400
      (.wsError (.NotFoundError "City Paris not found"))).stale_lookups = 1 ∧
    (get_weather (α := String) "Paris" cacheW CircuitBreaker.init 400
      (.wsError (.NotFoundError "City Paris not found"))).result
      = .ok "P" ⟨true, true, 400, "cache_fallback", none, "open"⟩ := by
  have h1 : pyStrip "Paris" = "Paris" := by decide
  have h2 : (pyStrip (pyLower "Paris") : String) = "paris" := by decide
  have h3 : ("weather:" ++ "paris" : String) = "weather:paris" := by decide
  have h4 : pyStrip "Paris" ≠ "" := by decide
  have h5 : ("Paris" : String) ≠ "" := by decide
  norm_num [get_weather, h1, h2, h3, h4, h5, CacheManager.generate_key,
    CacheManager.get, CacheManager.get_stale, CacheDict.get, CacheEntry.age_seconds,
    CircuitBreaker.should_attempt_request, CircuitBreaker.init, cacheW,
    CircuitBreaker.record_failure, CircuitBreaker.pushRecent,
    CircuitBreaker.calculate_failure_rate, CircuitState.value,
    buildMetadata, WeatherstackException.typeName, List.find?,
    CACHE_TTL_SECONDS, STALE_CACHE_MAX_AGE_SECONDS,
    CIRCUIT_BREAKER_FAILURE_THRESHOLD, CIRCUIT_BREAKER_FAILURE_RATE_THRESHOLD,
    CIRCUIT_BREAKER_RECOVERY_TIMEOUT]

/-- C2, amended: on a `NotFound`/`Auth` upstream failure the handler
treats the error like every other `WeatherstackException`: it ALWAYS
consults the stale cache (exactly one `get_stale` lookup); the kind's
HTTP status (404/401) is surfaced only when no entry within
`stale_max_age` exists, and otherwise the stale payload is returned with
HTTP 200. -/
theorem c2_notfound_auth_consult_stale {α : Type} (city : String)
    (cache : CacheManager α) (cb : CircuitBreaker) (now : Time)
    (e : WeatherstackException)
    (hcity : pyStrip city ≠ "")
    (_hkind : e.status_code = 404 ∨ e.status_code = 401)
    (hmiss : cache.get now (cache.generate_key (pyStrip city)) = none)
    (hallow : (cb.should_attempt_request now).1 = true) :
    (get_weather city cache cb now (.wsError e)).stale_lookups = 1 ∧
    ((cache.get_stale now (cache.generate_key (pyStrip city))).1 = none →
      (get_weather city cache cb now (.wsError e)).result
        = .httpError e.status_code e.message) ∧
    (∀ d md, cache.get_stale now (cache.generate_key (pyStrip city)) = (some d, md) →
      (get_weather city cache cb now (.wsError e)).result
        = .ok d (buildMetadata md
            (((cb.should_attempt_request now).2).record_failure now))) := by
  unfold get_weather
  rw [if_neg hcity]
  dsimp only
  rw [hmiss]
  dsimp only
  rcases hadm : cb.should_attempt_request now with ⟨allow, cb1⟩
  rw [hadm] at hallow
  dsimp only at hallow
  subst hallow
  dsimp only
  refine ⟨?_, ?_, ?_⟩
  · rcases hst : cache.get_stale now (cache.generate_key (pyStrip city)) with ⟨sd, smd⟩
    cases sd <;> simp [hst]
  · intro hnone
    rcases hst : cache.get_stale now (cache.generate_key (pyStrip city)) with ⟨sd, smd⟩
    rw [hst] at hnone
    dsimp only at hnone
    subst hnone
    simp [hst]
  · intro d md hsome
    simp [hsome]

/-- C2, witness for the amended theorem: with an empty cache, a
`NotFound` upstream failure surfaces HTTP 404 with the error message
(after the one stale lookup finds nothing). -/
theorem c2_notfound_auth_consult_stale_witness :
    (get_weather (α := Unit) "Paris" (CacheManager.init Unit) CircuitBreaker.init 0
      (.wsError (.NotFoundError "City Paris not found"))).result
      = .httpError 404 "City Paris not found" :=
  (c2_notfound_auth_consult_stale "Paris" (CacheManager.init Unit) CircuitBreaker.init 0
    (.NotFoundError "City Paris not found") (by decide) (Or.inl rfl) rfl rfl).2.1 rfl

end WeatherGateway
